import Mathlib

/-!
Shallow embedding of the generation-request pipeline of the ai-recipe-generator
repository: input validation (`src/lib/validation.ts`), the fixed-window rate
limiter wrappers (`src/lib/rate-limit.ts`), the SSE relay of the generation
route (`src/app/api/recipes/generate/route.ts`) and the streaming client
consumer (`src/components/recipe/recipe-display.tsx`).

Strings are modelled as Lean `String` / `List Char`; the repository's data is
ASCII, so JavaScript's UTF-16 code-unit length coincides with the character
count, and `toLowerCase` is modelled on ASCII letters.
-/

namespace RecipeGen

/-- Double-quote character, written numerically to keep literals simple. -/
def quoteChar : Char := Char.ofNat 34

/-- Apostrophe character. -/
def aposChar : Char := Char.ofNat 39

/-- ASCII subset of JavaScript's `\s` class (space, tab, line feed, vertical
tab, form feed, carriage return); the repository's inputs are ASCII. -/
def jsIsWs (c : Char) : Bool :=
  c = ' ' || c = '\t' || c = '\n' || c = Char.ofNat 11 || c = Char.ofNat 12 || c = '\r'

/-- Model of `String.prototype.trim`: drop whitespace from both ends. -/
def jsTrim (l : List Char) : List Char :=
  ((l.dropWhile jsIsWs).reverse.dropWhile jsIsWs).reverse

/-- Characters removed by the XSS-stripping step of `sanitizeInput`
(the regex `[<>"'&]` in `src/lib/validation.ts`). -/
def isXssChar (c : Char) : Bool :=
  c = '<' || c = '>' || c = quoteChar || c = aposChar || c = '&'

/-- Model of `.replace(/\s+/g, ' ')`: each maximal run of whitespace becomes a
single space.  The flag records whether the previous character was whitespace. -/
def collapseWsAux (inWs : Bool) : List Char → List Char
  | [] => []
  | c :: t =>
    if jsIsWs c then
      if inWs then collapseWsAux true t else ' ' :: collapseWsAux true t
    else c :: collapseWsAux false t

/-- Whitespace-run collapsing, starting outside a run. -/
def collapseWs (l : List Char) : List Char := collapseWsAux false l

/-- The ASCII uppercase-to-lowercase mapping of `toLowerCase`. -/
def UPPER_TO_LOWER : List (Char × Char) := [
  ('A', 'a'), ('B', 'b'), ('C', 'c'), ('D', 'd'), ('E', 'e'), ('F', 'f'),
  ('G', 'g'), ('H', 'h'), ('I', 'i'), ('J', 'j'), ('K', 'k'), ('L', 'l'),
  ('M', 'm'), ('N', 'n'), ('O', 'o'), ('P', 'p'), ('Q', 'q'), ('R', 'r'),
  ('S', 's'), ('T', 't'), ('U', 'u'), ('V', 'v'), ('W', 'w'), ('X', 'x'),
  ('Y', 'y'), ('Z', 'z')]

/-- ASCII model of `toLowerCase` on a single character: uppercase letters map
to their lowercase counterparts, everything else is unchanged. -/
def lcChar (c : Char) : Char :=
  ((UPPER_TO_LOWER.find? fun p => p.1 = c).map Prod.snd).getD c

/-- ASCII model of `String.prototype.toLowerCase`. -/
def toLowerStr (s : String) : String := ⟨s.data.map lcChar⟩

/-- `sanitizeInput` from `src/lib/validation.ts`: trim, strip `[<>"'&]`,
collapse whitespace runs to one space, lowercase — in that order. -/
def sanitizeInput (s : String) : String :=
  ⟨(collapseWs ((jsTrim s.data).filter (fun c => !isXssChar c))).map lcChar⟩

/-- Does `hay` start with `needle`? (helper for the substring test). -/
def begWith : List Char → List Char → Bool
  | _, [] => true
  | [], _ :: _ => false
  | a :: as, b :: bs => a = b && begWith as bs

/-- Model of `String.prototype.includes`: `needle` occurs contiguously in
`hay` (searched left to right). -/
def hasSub (needle : List Char) : List Char → Bool
  | [] => begWith [] needle
  | c :: t => begWith (c :: t) needle || hasSub needle t

/-- `hay.includes(sub)` on strings. -/
def jsIncludes (hay sub : String) : Bool := hasSub sub.data hay.data

/-! ### Constants from `src/lib/constants.ts` -/

/-- `COMMON_INGREDIENTS` from `src/lib/constants.ts`, in declaration order. -/
def COMMON_INGREDIENTS : List String := [
  "chicken", "beef", "pork", "fish", "salmon", "tuna", "shrimp", "eggs", "tofu", "beans", "lentils",
  "onion", "garlic", "tomato", "potato", "carrot", "celery", "bell pepper", "broccoli", "spinach", "kale",
  "mushrooms", "zucchini", "eggplant", "cucumber", "lettuce", "cabbage", "corn", "peas", "green beans",
  "asparagus", "brussels sprouts", "cauliflower", "sweet potato", "avocado", "radish", "beets",
  "basil", "oregano", "thyme", "rosemary", "parsley", "cilantro", "dill", "sage", "mint", "chives",
  "salt", "black pepper", "paprika", "cumin", "coriander", "turmeric", "ginger", "cinnamon", "nutmeg",
  "cardamom", "cloves", "bay leaves", "red pepper flakes", "garlic powder", "onion powder",
  "olive oil", "vegetable oil", "butter", "flour", "sugar", "brown sugar", "honey", "maple syrup",
  "vinegar", "balsamic vinegar", "soy sauce", "worcestershire sauce", "hot sauce", "mustard",
  "ketchup", "mayonnaise", "rice", "pasta", "bread", "oats", "quinoa", "couscous", "barley",
  "milk", "cream", "yogurt", "cheese", "mozzarella", "cheddar", "parmesan", "feta", "goat cheese",
  "cream cheese", "sour cream", "cottage cheese",
  "apple", "banana", "orange", "lemon", "lime", "strawberry", "blueberry", "raspberry", "blackberry",
  "grapes", "pineapple", "mango", "peach", "pear", "plum", "cherry", "watermelon", "cantaloupe",
  "kiwi", "pomegranate", "cranberry", "coconut",
  "almonds", "walnuts", "pecans", "peanuts", "cashews", "pistachios", "sunflower seeds", "pumpkin seeds",
  "sesame seeds", "chia seeds", "flax seeds", "pine nuts",
  "tomato sauce", "tomato paste", "coconut milk", "broth", "chicken broth", "vegetable broth",
  "canned beans", "canned tomatoes", "olives", "capers", "pickles", "dried cranberries", "raisins"]

/-- `BLACKLISTED_ITEMS` from `src/lib/constants.ts` (non-food terms). -/
def BLACKLISTED_ITEMS : List String := [
  "metal", "plastic", "glass", "wood", "paper", "concrete", "stone", "rubber", "fabric",
  "soap", "detergent", "bleach", "ammonia", "alcohol", "gasoline", "oil", "paint",
  "medicine", "pills", "drugs", "poison", "chemicals", "cleaning products"]

/-- `VALIDATION.MIN_INGREDIENTS`. -/
def MIN_INGREDIENTS : Nat := 3

/-- `VALIDATION.MAX_INGREDIENTS`. -/
def MAX_INGREDIENTS : Nat := 15

/-- `VALIDATION.MAX_INGREDIENT_LENGTH`. -/
def MAX_INGREDIENT_LENGTH : Nat := 50

/-! ### `src/lib/validation.ts`: zod schemas -/

/-- The issues collected by `ingredientSchema` from `src/lib/validation.ts`:
zod runs every non-fatal check and refinement on a dirty (non-aborted) parse,
so all failing checks report together, in execution order — `min(1)`,
`max(50)`, the non-whitespace refinement, then the blacklist refinement
(substring test on the lowercased raw value). -/
def ingredientSchemaIssues (s : String) : List String :=
  (if s.data.length < 1 then ["Ingredient cannot be empty"] else []) ++
  (if s.data.length > MAX_INGREDIENT_LENGTH then
    ["Ingredient must be less than 50 characters"] else []) ++
  (if (jsTrim s.data).length = 0 then ["Ingredient cannot be just whitespace"] else []) ++
  (if BLACKLISTED_ITEMS.any (fun item => jsIncludes (toLowerStr s) item) then
    ["This item is not a valid ingredient"] else [])

/-- The value an element contributes to the parsed array: zod's `transform`
runs only on a fully valid inner parse, so a dirty element keeps its raw
value while a valid one is sanitised. -/
def ingredientSchemaValue (s : String) : String :=
  if ingredientSchemaIssues s = [] then sanitizeInput s else s

/-- `ingredientSchema` from `src/lib/validation.ts` as a parse result: the
sanitised value when every check passes, otherwise every collected issue. -/
def ingredientSchema (s : String) : Except (List String) String :=
  if ingredientSchemaIssues s = [] then .ok (sanitizeInput s)
  else .error (ingredientSchemaIssues s)

/-- `recipeGenerationSchema` (the `ingredients` field) from
`src/lib/validation.ts`: zod records the array `min`/`max` issues, then every
element's issues in order, and — because a dirty parse is not aborted — still
runs the duplicate refinement (`new Set(map toLowerCase).size === length`,
modelled with `List.dedup`) on the element values (raw for dirty elements,
sanitised for valid ones), appending its issue last.  The parse succeeds only
when no issue was collected. -/
def recipeGenerationSchema (ingredients : List String) : Except (List String) (List String) :=
  let sizeIssues :=
    (if ingredients.length < MIN_INGREDIENTS then ["At least 3 ingredients required"] else []) ++
    (if ingredients.length > MAX_INGREDIENTS then ["Maximum 15 ingredients allowed"] else [])
  let elemIssues := (ingredients.map ingredientSchemaIssues).flatten
  let values := ingredients.map ingredientSchemaValue
  let dupIssues :=
    if ((values.map toLowerStr).dedup).length = values.length then []
    else ["Duplicate ingredients are not allowed"]
  let issues := sizeIssues ++ elemIssues ++ dupIssues
  if issues = [] then .ok values else .error issues

/-! ### `src/lib/validation.ts`: fuzzy matcher -/

/-- Result type `IngredientValidation` (the `category` field is never set by
`findClosestIngredient`, so it is omitted here). -/
structure IngredientValidation where
  isValid : Bool
  suggestion : Option String
  confidence : ℚ
  deriving DecidableEq, Repr

/-- One row-extension step of the Levenshtein DP from `src/lib/validation.ts`:
given the previous row (`diag` is the entry above-left, `pRest` the entries
above and to the right) and the value `left` just computed in the current row,
produce the rest of the current row for character `c2` of the second string. -/
def levRowGo (c2 : Char) : List Char → Nat → List Nat → Nat → List Nat
  | [], _, _, _ => []
  | _ :: _, _, [], _ => []
  | c1 :: s1t, diag, pAbove :: pRest, left =>
    let ind := if c1 = c2 then 0 else 1
    let cell := min (left + 1) (min (pAbove + 1) (diag + ind))
    cell :: levRowGo c2 s1t pAbove pRest cell

/-- Compute the next DP row from the previous one (row `j` from row `j-1`). -/
def levStep (s1 : List Char) (prev : List Nat) (c2 : Char) : List Nat :=
  let h := prev.headD 0
  (h + 1) :: levRowGo c2 s1 h prev.tail (h + 1)

/-- `levenshteinDistance` from `src/lib/validation.ts`: classic DP matrix,
`matrix[0][i] = i`, `matrix[j][0] = j`, cell = min of left+1, up+1,
diagonal+indicator; the result is `matrix[str2.length][str1.length]`. -/
def levenshteinDistance (str1 str2 : String) : Nat :=
  let finalRow := str2.data.foldl (fun prev c2 => levStep str1.data prev c2)
    (List.range (str1.data.length + 1))
  finalRow.getLastD 0

/-- `calculateSimilarity` from `src/lib/validation.ts`: normalized
edit-distance similarity `(maxLen - distance) / maxLen` in `[0,1]`. -/
def calculateSimilarity (str1 str2 : String) : ℚ :=
  if str1 = str2 then 1
  else
    let longer := if str1.data.length > str2.data.length then str1 else str2
    let shorter := if str1.data.length > str2.data.length then str2 else str1
    if longer.data.length = 0 then 1
    else ((longer.data.length : ℚ) - levenshteinDistance longer shorter) / longer.data.length

/-- `findClosestIngredient` from `src/lib/validation.ts`: exact vocabulary
match, else the best entry with similarity strictly above 0.6 (strict
comparison keeps the first-encountered entry on ties), else the bidirectional
blacklist substring test, else the permissive unknown-ingredient default. -/
def findClosestIngredient (input : String) : IngredientValidation :=
  let cleanInput := sanitizeInput input
  if COMMON_INGREDIENTS.contains cleanInput then ⟨true, none, 1⟩
  else
    let best := COMMON_INGREDIENTS.foldl
      (fun (acc : String × ℚ) ingredient =>
        let score := calculateSimilarity cleanInput ingredient
        if score > acc.2 ∧ score > 6/10 then (ingredient, score) else acc)
      ("", 0)
    if best.1 ≠ "" then ⟨false, some best.1, best.2⟩
    else if BLACKLISTED_ITEMS.any
        (fun item => jsIncludes cleanInput item || jsIncludes item cleanInput) then
      ⟨false, none, 0⟩
    else ⟨true, none, 3/10⟩

/-! ### `src/lib/rate-limit.ts`

The module instantiates three independent `RateLimiterMemory` limiters
(guest and user generation limiters with a 3600 s window, a validation limiter
with a 60 s window) and wraps their `consume` calls into `RateLimitResult`
values.  Times are in milliseconds. -/

/-- Configuration of one `RateLimiterMemory` instance (`points`, `duration`
in seconds). -/
structure LimiterCfg where
  points : Nat
  duration : Nat
  deriving DecidableEq, Repr

/-- `RATE_LIMITS.GUEST_REQUESTS_PER_HOUR` default (5) with the 3600 s window. -/
def guestCfg : LimiterCfg := ⟨5, 3600⟩

/-- `RATE_LIMITS.USER_REQUESTS_PER_HOUR` default (20) with the 3600 s window. -/
def userCfg : LimiterCfg := ⟨20, 3600⟩

/-- `RATE_LIMITS.VALIDATION_REQUESTS_PER_MINUTE` (10) with the 60 s window. -/
def validationCfg : LimiterCfg := ⟨10, 60⟩

/-- Per-key fixed-window counter: window start time (ms) and hit count. -/
structure LimiterWindow where
  start : Nat
  hits : Nat
  deriving DecidableEq, Repr

/-- Outcome of one `RateLimiterMemory.consume` call: success carries
`totalHits` and `msBeforeNext`; rejection carries `msBeforeNext`. -/
inductive LimiterOutcome where
  | ok (totalHits msBeforeNext : Nat)
  | rejected (msBeforeNext : Nat)
  deriving DecidableEq, Repr

/-- Modelled from the spec: the `rate-limiter-flexible` `RateLimiterMemory`
internals are a library dependency, not repository source.  Per the spec's
rate-limiter contract: fixed-window counting per key with lazy window reset —
a key's window is (re)initialized the first time it is touched after the
previous window's expiry; on consume, if hits-so-far < limit, increment and
allow, else reject with the time until window reset. -/
def limiterConsume (cfg : LimiterCfg) (w : Option LimiterWindow) (now : Nat) :
    LimiterOutcome × LimiterWindow :=
  match w with
  | none => (.ok 1 (cfg.duration * 1000), ⟨now, 1⟩)
  | some win =>
    if win.start + cfg.duration * 1000 ≤ now then
      (.ok 1 (cfg.duration * 1000), ⟨now, 1⟩)
    else if win.hits < cfg.points then
      (.ok (win.hits + 1) (win.start + cfg.duration * 1000 - now),
       ⟨win.start, win.hits + 1⟩)
    else
      (.rejected (win.start + cfg.duration * 1000 - now), win)

/-- `RateLimitResult` from `src/lib/rate-limit.ts` (`resetTime` as an epoch
millisecond value, `retryAfter` in seconds when present). -/
structure RateLimitResult where
  allowed : Bool
  limit : Int
  remaining : Int
  resetTime : Nat
  retryAfter : Option Nat
  deriving DecidableEq, Repr

/-- JavaScript `Math.round(ms / 1000)` for a nonnegative millisecond count
(round half up). -/
def jsRoundDiv1000 (ms : Nat) : Nat := (2 * ms + 1000) / 2000

/-- Shared result-building logic of `consumeRateLimit` and
`consumeValidationRateLimit`: on success, `remaining = max(0, limit -
totalHits)`; on rejection, `remaining = 0` and `retryAfter =
Math.round(msBeforeNext / 1000) || 1`. -/
def rateLimitResultOf (limit : Nat) (out : LimiterOutcome) (now : Nat) : RateLimitResult :=
  match out with
  | .ok totalHits ms =>
    { allowed := true, limit := limit, remaining := max 0 ((limit : Int) - totalHits),
      resetTime := now + ms, retryAfter := none }
  | .rejected ms =>
    let secs := jsRoundDiv1000 ms
    { allowed := false, limit := limit, remaining := 0, resetTime := now + ms,
      retryAfter := some (if secs = 0 then 1 else secs) }

/-- The module-level stores of the three `RateLimiterMemory` instances
(`rateLimiterGuest`, `rateLimiterUser`, `rateLimiterValidation`), each a
separate key-indexed table. -/
structure RateLimitStore where
  guest : String → Option LimiterWindow
  user : String → Option LimiterWindow
  validation : String → Option LimiterWindow

/-- The empty store: no key has been touched. -/
def emptyStore : RateLimitStore := ⟨fun _ => none, fun _ => none, fun _ => none⟩

/-- `consumeRateLimit` from `src/lib/rate-limit.ts`: pick the guest or user
limiter by `isAuthenticated`, consume key `recipe_generation:<identifier>`,
and build the `RateLimitResult`. -/
def consumeRateLimit (identifier : String) (isAuthenticated : Bool) (now : Nat)
    (st : RateLimitStore) : RateLimitResult × RateLimitStore :=
  let cfg := if isAuthenticated then userCfg else guestCfg
  let key := "recipe_generation:" ++ identifier
  let table := if isAuthenticated then st.user else st.guest
  let step := limiterConsume cfg (table key) now
  let table2 : String → Option LimiterWindow := fun k => if k = key then some step.2 else table k
  (rateLimitResultOf cfg.points step.1 now,
   if isAuthenticated then { st with user := table2 } else { st with guest := table2 })

/-- `consumeValidationRateLimit` from `src/lib/rate-limit.ts`: consume key
`validation:<identifier>` on the validation limiter. -/
def consumeValidationRateLimit (identifier : String) (now : Nat)
    (st : RateLimitStore) : RateLimitResult × RateLimitStore :=
  let key := "validation:" ++ identifier
  let step := limiterConsume validationCfg (st.validation key) now
  let table2 : String → Option LimiterWindow := fun k => if k = key then some step.2 else st.validation k
  (rateLimitResultOf validationCfg.points step.1 now, { st with validation := table2 })

/-- Run a sequence of consumes of one key on one limiter (times in ms),
threading the window state and collecting the wrapped results. -/
def consumeSeq (cfg : LimiterCfg) : List Nat → Option LimiterWindow →
    List RateLimitResult × Option LimiterWindow
  | [], w => ([], w)
  | t :: ts, w =>
    let step := limiterConsume cfg w t
    let rest := consumeSeq cfg ts (some step.2)
    (rateLimitResultOf cfg.points step.1 t :: rest.1, rest.2)

/-! ### `src/app/api/recipes/generate/route.ts`: SSE relay -/

/-- The framed SSE events (`type` discriminant of the JSON payload).  The
route's handler never produces `chunk`, but the constructor is part of the
client-visible event vocabulary. -/
inductive SSEEvent where
  | chunk (content : String)
  | complete (content : String)
  | errorEv (message : String)
  deriving DecidableEq, Repr

/-- Is the event a terminal event (`complete` or `error`)? -/
def isTerminalEvent : SSEEvent → Bool
  | .complete _ => true
  | .errorEv _ => true
  | .chunk _ => false

/-- Number of terminal events in a written-event list. -/
def terminalCount (evs : List SSEEvent) : Nat := (evs.filter isTerminalEvent).length

/-- Number of chunk events in a written-event list. -/
def chunkCount (evs : List SSEEvent) : Nat :=
  (evs.filter fun e => !isTerminalEvent e).length

/-- The outbound `ReadableStream` controller together with the
`isControllerClosed` flag of the route. -/
structure Controller where
  written : List SSEEvent
  closed : Bool
  deriving DecidableEq, Repr

/-- A fresh controller: nothing written, not closed. -/
def freshController : Controller := ⟨[], false⟩

/-- `safeEnqueue` from the route: enqueue only while the controller is open,
returning whether the write happened.  (The `catch` branch of the source marks
the controller closed when the transport throws; the model covers the
non-throwing transport.) -/
def safeEnqueue (ctrl : Controller) (ev : SSEEvent) : Controller × Bool :=
  if !ctrl.closed then ({ ctrl with written := ctrl.written ++ [ev] }, true)
  else (ctrl, false)

/-- `safeClose` from the route: close only once. -/
def safeClose (ctrl : Controller) : Controller :=
  if !ctrl.closed then { ctrl with closed := true } else ctrl

/-- How the provider stream terminates: the `end` or the `error` event. -/
inductive ProviderEnd where
  | ended
  | errored
  deriving DecidableEq, Repr

/-- The user-safe message of the route's `stream.on('error')` handler. -/
def streamErrorMessage : String := "Failed to generate recipe. Please try again."

/-- The relay logic of the route (lines 143–177): every provider `text` chunk
is appended to `fullResponse` and nothing is forwarded (buffered strategy);
on `end`, one `complete` event with the accumulated text is enqueued and the
controller closed; on `error`, one `error` event is enqueued and the
controller closed (`if (safeEnqueue(...)) safeClose()`). -/
def relayStream (chunks : List String) (term : ProviderEnd) (ctrl : Controller) : Controller :=
  let fullResponse := chunks.foldl (· ++ ·) ""
  match term with
  | .ended =>
    let r := safeEnqueue ctrl (.complete fullResponse)
    if r.2 then safeClose r.1 else r.1
  | .errored =>
    let r := safeEnqueue ctrl (.errorEv streamErrorMessage)
    if r.2 then safeClose r.1 else r.1

/-- The pre-stream decision of the route's `POST`: a 429 rejection when the
rate limiter disallows, a 400 validation-error response when
`recipeGenerationSchema` fails, otherwise the SSE stream is opened. -/
inductive GenerateResponse where
  | http429
  | http400 (errors : List String)
  | streamOpened (ingredients : List String)
  deriving DecidableEq, Repr

/-- The gating logic of `POST /api/recipes/generate` (rate limit first, then
validation, then the stream). -/
def handleGenerate (rate : RateLimitResult) (ingredients : List String) : GenerateResponse :=
  if !rate.allowed then .http429
  else
    match recipeGenerationSchema ingredients with
    | .error errs => .http400 errs
    | .ok ing => .streamOpened ing

/-! ### `src/components/recipe/recipe-display.tsx`: streaming client consumer

The repository file holds two near-identical variants of the `RecipeDisplay`
component; the state fields below are the union of both variants' React
state (fields a variant does not have are simply untouched by its
functions). -/

/-- Client-side display / request state of `RecipeDisplay`. -/
structure ConsumerState where
  displayedContent : String
  fullContent : String
  recipeTitle : String
  error : Option String
  isSaved : Bool
  showCursor : Bool
  isTyping : Bool
  isGeneratingRecipe : Bool
  isGeneratingRef : Bool
  deriving DecidableEq, Repr

/-- The synchronous prologue of the first variant's `generateRecipe`
(lines 246–285): bail out below 3 ingredients; bail out when
`isGeneratingRef.current` is already set (single-flight guard); otherwise set
the in-flight flags, clear the display state, and issue the fetch (returned
as `some ingredients`). -/
def generateRecipeStart (ingredients : List String) (s : ConsumerState) :
    ConsumerState × Option (List String) :=
  if ingredients.length < 3 then (s, none)
  else if s.isGeneratingRef then (s, none)
  else
    ({ s with isGeneratingRef := true, isGeneratingRecipe := true, error := none,
              displayedContent := "", fullContent := "", recipeTitle := "",
              isSaved := false, showCursor := true },
     some ingredients)

/-- A failure thrown out of the fetch/stream loop, discriminated the way the
source does (`error.name === 'AbortError'`). -/
inductive FetchError where
  | abortError
  | other (message : String)
  deriving DecidableEq, Repr

/-- The `catch` branch of the first variant's `generateRecipe`
(lines 385–394): an `AbortError` is only logged; any other error sets a
network-error message. -/
def generateRecipeCatchV1 (e : FetchError) (s : ConsumerState) : ConsumerState :=
  match e with
  | .abortError => s
  | .other msg => { s with error := some ("Network error: " ++ msg) }

/-- The `finally` branch of the first variant (lines 395–400). -/
def generateRecipeFinallyV1 (s : ConsumerState) : ConsumerState :=
  { s with isGeneratingRef := false, isGeneratingRecipe := false,
           showCursor := false, isTyping := false }

/-- The `catch` branch of the second variant's `generateRecipe`
(lines 887–892): an `AbortError` sets the message "Recipe generation was
cancelled." into the error state (which the component renders in its error
box); any other error sets a generic network-error message. -/
def generateRecipeCatchV2 (e : FetchError) (s : ConsumerState) : ConsumerState :=
  match e with
  | .abortError => { s with error := some "Recipe generation was cancelled." }
  | .other _ =>
    { s with error := some "Network error. Please check your connection and try again." }

/-- The `finally` branch of the second variant (lines 893–895). -/
def generateRecipeFinallyV2 (s : ConsumerState) : ConsumerState :=
  { s with showCursor := false }

/-! ### Title extraction (first variant, `complete` handler, lines 341–363) -/

/-- Trim as applied by `.trim()` on a `String`. -/
def jsTrimStr (s : String) : String := ⟨jsTrim s.data⟩

/-- First match of the regex `/# (.+)/`: scan left to right for `'#'`
followed by `' '` followed by at least one non-newline character; the group is
the maximal non-newline run from there.  On a failed attempt the scan advances
one position, as a regex engine does. -/
def mdScan : List Char → Option (List Char)
  | [] => none
  | c0 :: rest =>
    match c0, rest with
    | '#', ' ' :: c :: rest2 =>
      if c = '\n' then mdScan rest
      else some (c :: rest2.takeWhile (fun x => x ≠ '\n'))
    | _, _ => mdScan rest

/-- `content.match(/# (.+)/)`, group 1. -/
def matchMarkdownTitle (content : String) : Option String :=
  (mdScan content.data).map fun l => ⟨l⟩

/-- The tail of a `/^1\.\s*(.+?)(?:\n|$)/m` match attempt after `1.` was seen
at a line start: `\s*` consumes whitespace greedily, then the lazy group,
closed by a newline or (multiline) end-of-line, captures the following
non-newline run.  When only whitespace remains, the engine backtracks `\s*`
and captures the last non-newline whitespace character, if any. -/
def numMatchTail (rest : List Char) : Option (List Char) :=
  let grp := (rest.dropWhile jsIsWs).takeWhile (fun x => x ≠ '\n')
  if grp ≠ [] then some grp
  else
    match (rest.filter (fun x => x ≠ '\n')).getLast? with
    | some c => some [c]
    | none => none

/-- Attempt the `1.`-anchored match at the current position. -/
def numTryAt : List Char → Option (List Char)
  | '1' :: '.' :: r => numMatchTail r
  | _ => none

/-- Scan the content's line starts in order (multiline `^`), attempting the
numbered-title match at each. -/
def numScanAux (atStart : Bool) : List Char → Option (List Char)
  | [] => none
  | c :: t =>
    if atStart then
      match numTryAt (c :: t) with
      | some g => some g
      | none => numScanAux (c = '\n') t
    else numScanAux (c = '\n') t

/-- `content.match(/^1\.\s*(.+?)(?:\n|$)/m)`, group 1. -/
def matchNumberedTitle (content : String) : Option String :=
  (numScanAux true content.data).map fun l => ⟨l⟩

/-- The title extraction of the first variant's `complete` handler: markdown
heading first, then the numbered pattern, then the trimmed first line (only
set when nonempty); `none` means `recipeTitle` is left unset. -/
def extractTitle (content : String) : Option String :=
  match matchMarkdownTitle content with
  | some t => some (jsTrimStr t)
  | none =>
    match matchNumberedTitle content with
    | some t => some (jsTrimStr t)
    | none =>
      let firstLine := jsTrimStr ⟨content.data.takeWhile (fun x => x ≠ '\n')⟩
      if firstLine ≠ "" then some firstLine else none

/-- Split a character list at every newline (helper for the claimed
fallback). -/
def splitLinesAux (acc : List Char) : List Char → List (List Char)
  | [] => [acc.reverse]
  | c :: t => if c = '\n' then acc.reverse :: splitLinesAux [] t else splitLinesAux (c :: acc) t

/-- The lines of a string. -/
def splitLines (s : String) : List String :=
  (splitLinesAux [] s.data).map fun l => ⟨l⟩

/-- The title-extraction procedure as the claim words it: markdown heading,
then numbered line, then fallback to the first NON-EMPTY line.  Stated only to
be compared against `extractTitle`, which is translated from the source. -/
def extractTitleClaimed (content : String) : Option String :=
  match matchMarkdownTitle content with
  | some t => some (jsTrimStr t)
  | none =>
    match matchNumberedTitle content with
    | some t => some (jsTrimStr t)
    | none =>
      match (splitLines content).find? (fun line => jsTrimStr line ≠ "") with
      | some line => some (jsTrimStr line)
      | none => none

/-! ## Theorems -/

set_option maxRecDepth 20000 in
/-- C1: the generation handler's validation does NOT accept
`["tomato","basil","olive oil"]`: the blacklist substring refinement of
`ingredientSchema` rejects "olive oil" (it contains the blacklisted term
"oil"), so the handler answers with a 400 validation error and no stream is
opened — even though the repository's own vocabulary lists "olive oil" and its
fuzzy matcher validates it with confidence 1.0.  This contradicts the spec's
end-to-end scenario (and the code's own ingredient database), evidencing the
code bug behind the claim. -/
theorem C1_oliveOil_rejected :
    recipeGenerationSchema ["tomato", "basil", "olive oil"]
      = .error ["This item is not a valid ingredient"] ∧
    handleGenerate (consumeRateLimit "guest-ip" false 0 emptyStore).1
        ["tomato", "basil", "olive oil"]
      = .http400 ["This item is not a valid ingredient"] ∧
    ingredientSchema "olive oil" = .error ["This item is not a valid ingredient"] ∧
    findClosestIngredient "olive oil" = ⟨true, none, 1⟩ ∧
    "olive oil" ∈ COMMON_INGREDIENTS := by
  refine ⟨by rfl, by rfl, by rfl, by rfl, by decide⟩

/-- C2: for every finite sequence of provider text chunks relayed from a
fresh controller, the buffered relay emits zero chunk events; on provider
end it writes exactly one `complete` event whose content is the concatenation
of all chunks in arrival order and closes the stream; on provider error it
writes exactly one `error` event and closes the stream; in both runs exactly
one terminal event is written and nothing follows it. -/
theorem C2_relay_buffered (chunks : List String) :
    (relayStream chunks .ended freshController).written
      = [SSEEvent.complete (chunks.foldl (· ++ ·) "")] ∧
    (relayStream chunks .ended freshController).closed = true ∧
    (relayStream chunks .errored freshController).written
      = [SSEEvent.errorEv streamErrorMessage] ∧
    (relayStream chunks .errored freshController).closed = true ∧
    chunkCount (relayStream chunks .ended freshController).written = 0 ∧
    terminalCount (relayStream chunks .ended freshController).written = 1 ∧
    chunkCount (relayStream chunks .errored freshController).written = 0 ∧
    terminalCount (relayStream chunks .errored freshController).written = 1 :=
  ⟨rfl, rfl, rfl, rfl, rfl, rfl, rfl, rfl⟩

/-- Evaluate a fold over a long literal list in two stages (kept small so the
kernel never has to reduce a deeply nested accumulator in one pass). -/
theorem foldl_chunk {α β : Type} (f : β → α → β) (l : List α) (n : Nat) (a b c : β)
    (h1 : List.foldl f a (l.take n) = b) (h2 : List.foldl f b (l.drop n) = c) :
    List.foldl f a l = c := by
  calc List.foldl f a l = List.foldl f a (l.take n ++ l.drop n) := by
        rw [List.take_append_drop]
    _ = List.foldl f (List.foldl f a (l.take n)) (l.drop n) := List.foldl_append ..
    _ = c := by rw [h1, h2]

/-- Evaluate `List.all` over a long literal list in two stages. -/
theorem all_chunk {α : Type} (p : α → Bool) (l : List α) (n : Nat)
    (h1 : (l.take n).all p = true) (h2 : (l.drop n).all p = true) : l.all p = true := by
  rw [← List.take_append_drop n l, List.all_append, h1, h2]
  rfl

set_option maxRecDepth 20000 in
/-- C4: `findClosestIngredient "tomatoe"` returns isValid=false with
suggestion "tomato" and confidence 6/7 = (7 − 1)/7 > 0.6; the edit distance
to "tomato" is 1, "tomato" is in the vocabulary, and no vocabulary entry
scores above 6/7 (the strict comparison in the fold keeps the
first-encountered entry on ties). -/
theorem C4_fuzzy_tomatoe :
    findClosestIngredient "tomatoe" = ⟨false, some "tomato", 6/7⟩ ∧
    ((6 : ℚ)/7 > 6/10) ∧
    calculateSimilarity "tomatoe" "tomato" = ((7 : ℚ) - 1) / 7 ∧
    levenshteinDistance "tomatoe" "tomato" = 1 ∧
    "tomato" ∈ COMMON_INGREDIENTS ∧
    (COMMON_INGREDIENTS.all fun e => calculateSimilarity "tomatoe" e ≤ 6/7) = true := by
  have hfold : List.foldl (fun (acc : String × ℚ) ingredient =>
      let score := calculateSimilarity (sanitizeInput "tomatoe") ingredient
      if score > acc.2 ∧ score > 6/10 then (ingredient, score) else acc) ("", 0)
      COMMON_INGREDIENTS = ("tomato", 6/7) := by
    refine foldl_chunk _ _ 18 _ ("tomato", 6/7) _ (by with_unfolding_all rfl) ?_
    refine foldl_chunk _ _ 18 _ ("tomato", 6/7) _ (by with_unfolding_all rfl) ?_
    refine foldl_chunk _ _ 18 _ ("tomato", 6/7) _ (by with_unfolding_all rfl) ?_
    refine foldl_chunk _ _ 18 _ ("tomato", 6/7) _ (by with_unfolding_all rfl) ?_
    refine foldl_chunk _ _ 18 _ ("tomato", 6/7) _ (by with_unfolding_all rfl) ?_
    refine foldl_chunk _ _ 18 _ ("tomato", 6/7) _ (by with_unfolding_all rfl) ?_
    refine foldl_chunk _ _ 18 _ ("tomato", 6/7) _ (by with_unfolding_all rfl) ?_
    with_unfolding_all rfl
  have hc : COMMON_INGREDIENTS.contains (sanitizeInput "tomatoe") = false := by rfl
  refine ⟨?_, by norm_num, by with_unfolding_all rfl, by rfl, by decide, ?_⟩
  · rw [findClosestIngredient]
    simp only [hc, Bool.false_eq_true, if_false, hfold]
    rw [if_pos (show ("tomato" : String) ≠ "" by decide)]
  · refine all_chunk _ _ 18 (by with_unfolding_all rfl) ?_
    refine all_chunk _ _ 18 (by with_unfolding_all rfl) ?_
    refine all_chunk _ _ 18 (by with_unfolding_all rfl) ?_
    refine all_chunk _ _ 18 (by with_unfolding_all rfl) ?_
    refine all_chunk _ _ 18 (by with_unfolding_all rfl) ?_
    refine all_chunk _ _ 18 (by with_unfolding_all rfl) ?_
    refine all_chunk _ _ 18 (by with_unfolding_all rfl) ?_
    with_unfolding_all rfl

/-- C5: when the in-flight flag `isGeneratingRef` is set, invoking the first
variant's `generateRecipe` again is a no-op: the state is unchanged and no
network request is issued. -/
theorem C5_single_flight (ingredients : List String) (s : ConsumerState)
    (h : s.isGeneratingRef = true) :
    generateRecipeStart ingredients s = (s, none) := by
  simp [generateRecipeStart, h]

/-- Witness for C5 at a concrete in-flight state. -/
theorem C5_single_flight_witness :
    generateRecipeStart ["tomato", "basil", "butter"]
        ⟨"", "", "", none, false, false, false, false, true⟩
      = (⟨"", "", "", none, false, false, false, false, true⟩, none) :=
  C5_single_flight _ _ rfl

/-- C6: on an `AbortError`, the first variant's catch/finally leaves the
error state unchanged, but the second variant's catch sets the user-visible
error message "Recipe generation was cancelled." — cancellation IS displayed
as an error there, contradicting the spec's failure semantics. -/
theorem C6_abort_error_state (s : ConsumerState) :
    (generateRecipeFinallyV1 (generateRecipeCatchV1 .abortError s)).error = s.error ∧
    (generateRecipeFinallyV2 (generateRecipeCatchV2 .abortError s)).error
      = some "Recipe generation was cancelled." :=
  ⟨rfl, rfl⟩

/-- C7 counterexample: for content whose first line is empty, the code's
fallback (first line, trimmed) extracts no title, while the claimed fallback
(first NON-empty line) would extract "Pasta". -/
theorem C7_counterexample :
    extractTitle "\nPasta" = none ∧ extractTitleClaimed "\nPasta" = some "Pasta" := by
  refine ⟨by decide, by decide⟩

/-- C7 (amended): title extraction attempts the markdown-heading pattern,
then the numbered-line pattern, then falls back to the FIRST LINE trimmed
(no title when that line is blank), with the first successful attempt
winning; both concrete examples of the claim hold. -/
theorem C7_title_extraction :
    extractTitle "1. Tomato Basil Pasta\n2. Prep Time..." = some "Tomato Basil Pasta" ∧
    extractTitle "# Tomato Basil Pasta\n..." = some "Tomato Basil Pasta" ∧
    (∀ c t, matchMarkdownTitle c = some t → extractTitle c = some (jsTrimStr t)) ∧
    (∀ c t, matchMarkdownTitle c = none → matchNumberedTitle c = some t →
      extractTitle c = some (jsTrimStr t)) ∧
    (∀ c, matchMarkdownTitle c = none → matchNumberedTitle c = none →
      extractTitle c
        = (if jsTrimStr ⟨c.data.takeWhile (fun x => x ≠ '\n')⟩ ≠ ""
           then some (jsTrimStr ⟨c.data.takeWhile (fun x => x ≠ '\n')⟩) else none)) := by
  refine ⟨by decide, by decide, ?_, ?_, ?_⟩
  · intro c t h
    unfold extractTitle
    rw [h]
  · intro c t h1 h2
    unfold extractTitle
    rw [h1, h2]
  · intro c h1 h2
    unfold extractTitle
    rw [h1, h2]

/-- Witness for C7: the ordered-attempt parts applied at concrete contents. -/
theorem C7_title_extraction_witness :
    extractTitle "word # md title\n1. numbered" = some (jsTrimStr "md title") ∧
    extractTitle "intro\n1. numbered title\nrest" = some (jsTrimStr "numbered title") ∧
    extractTitle "plain line\nrest"
      = (if jsTrimStr ⟨("plain line\nrest" : String).data.takeWhile (fun x => x ≠ '\n')⟩ ≠ ""
         then some (jsTrimStr ⟨("plain line\nrest" : String).data.takeWhile (fun x => x ≠ '\n')⟩)
         else none) :=
  ⟨C7_title_extraction.2.2.1 _ "md title" (by decide),
   C7_title_extraction.2.2.2.1 _ "numbered title" (by decide) (by decide),
   C7_title_extraction.2.2.2.2 _ (by decide) (by decide)⟩

/-- A consume strictly inside the window neither resets it nor changes its
start: it increments below the point limit and rejects at it. -/
theorem limiterConsume_inWindow (cfg : LimiterCfg) (t0 h t : Nat)
    (hlt : t < t0 + cfg.duration * 1000) :
    limiterConsume cfg (some ⟨t0, h⟩) t =
      if h < cfg.points then
        (.ok (h + 1) (t0 + cfg.duration * 1000 - t), ⟨t0, h + 1⟩)
      else (.rejected (t0 + cfg.duration * 1000 - t), ⟨t0, h⟩) := by
  simp only [limiterConsume]
  rw [if_neg (by omega)]

/-- Result facts for a successful consume: allowed, with
`remaining = limit - totalHits` whenever `totalHits ≤ limit`. -/
theorem rateLimitResultOf_ok (points totalHits ms now : Nat) (h : totalHits ≤ points) :
    (rateLimitResultOf points (.ok totalHits ms) now).allowed = true ∧
    (rateLimitResultOf points (.ok totalHits ms) now).remaining = (points : Int) - totalHits := by
  refine ⟨rfl, ?_⟩
  show max 0 ((points : Int) - totalHits) = (points : Int) - totalHits
  omega

/-- Result facts for a rejected consume: not allowed, `remaining = 0`, and a
positive `retryAfter` (the `|| 1` coercion keeps it at least 1). -/
theorem rateLimitResultOf_rejected (points ms now : Nat) :
    (rateLimitResultOf points (.rejected ms) now).allowed = false ∧
    (rateLimitResultOf points (.rejected ms) now).remaining = 0 ∧
    ∃ s, (rateLimitResultOf points (.rejected ms) now).retryAfter = some s ∧ 0 < s := by
  refine ⟨rfl, rfl, ⟨if jsRoundDiv1000 ms = 0 then 1 else jsRoundDiv1000 ms, rfl, ?_⟩⟩
  split
  · omega
  · rename_i hne
    omega

/-- Behaviour of a consume sequence inside one fixed window: starting from a
window opened at `t0` that has absorbed `h ≥ 1` consumes (hence holds
`min h points` hits), every further consume before the window's expiry is
allowed with `remaining = points - (hits so far)` while fewer than `points`
hits have occurred, and is rejected with `remaining = 0` and a positive
`retryAfter` afterwards; the window keeps start `t0` throughout. -/
theorem consumeSeq_inWindow (cfg : LimiterCfg) (t0 : Nat) :
    ∀ (ts : List Nat) (h : Nat), 0 < h →
      (∀ t ∈ ts, t < t0 + cfg.duration * 1000) →
      (consumeSeq cfg ts (some ⟨t0, min h cfg.points⟩)).2
          = some ⟨t0, min (h + ts.length) cfg.points⟩ ∧
      (consumeSeq cfg ts (some ⟨t0, min h cfg.points⟩)).1.length = ts.length ∧
      (∀ i r, (consumeSeq cfg ts (some ⟨t0, min h cfg.points⟩)).1.get? i = some r →
        (h + i < cfg.points →
          r.allowed = true ∧ r.remaining = (cfg.points : Int) - (h + i + 1)) ∧
        (cfg.points ≤ h + i →
          r.allowed = false ∧ r.remaining = 0 ∧
          ∃ s, r.retryAfter = some s ∧ 0 < s)) := by
  intro ts
  induction ts with
  | nil =>
    intro h h0 _
    refine ⟨rfl, rfl, ?_⟩
    intro i r hr
    simp [consumeSeq] at hr
  | cons t ts ih =>
    intro h h0 hts
    have hlt : t < t0 + cfg.duration * 1000 := hts t (by simp)
    have htail : ∀ x ∈ ts, x < t0 + cfg.duration * 1000 := fun x hx => hts x (by simp [hx])
    have hmin1 : (⟨t0, min h cfg.points⟩ : LimiterWindow).hits + 1 = min (h + 1) cfg.points
        ∨ True := Or.inr trivial
    by_cases hp : h < cfg.points
    · have hstep : limiterConsume cfg (some ⟨t0, min h cfg.points⟩) t
          = (.ok (h + 1) (t0 + cfg.duration * 1000 - t), ⟨t0, min (h + 1) cfg.points⟩) := by
        rw [show min h cfg.points = h by omega,
            limiterConsume_inWindow cfg t0 h t hlt, if_pos hp]
        have : h + 1 = min (h + 1) cfg.points := by omega
        rw [← this]
      have hrun : consumeSeq cfg (t :: ts) (some ⟨t0, min h cfg.points⟩)
          = (rateLimitResultOf cfg.points (.ok (h + 1) (t0 + cfg.duration * 1000 - t)) t
              :: (consumeSeq cfg ts (some ⟨t0, min (h + 1) cfg.points⟩)).1,
             (consumeSeq cfg ts (some ⟨t0, min (h + 1) cfg.points⟩)).2) := by
        simp only [consumeSeq, hstep]
      obtain ⟨ih1, ih2, ih3⟩ := ih (h + 1) (by omega) htail
      refine ⟨?_, ?_, ?_⟩
      · rw [hrun]
        rw [ih1]
        simp only [Option.some.injEq, LimiterWindow.mk.injEq, List.length_cons, true_and]
        congr 1
        omega
      · rw [hrun]
        simp only [List.length_cons, ih2]
      · intro i r hr
        rw [hrun] at hr
        match i, hr with
        | 0, hr =>
          rw [List.get?_cons_zero, Option.some.injEq] at hr
          obtain ⟨ha, hrem⟩ := rateLimitResultOf_ok cfg.points (h + 1)
            (t0 + cfg.duration * 1000 - t) t (by omega)
          constructor
          · intro _
            refine ⟨hr ▸ ha, ?_⟩
            rw [← hr, hrem]
            push_cast
            ring
          · intro hcon
            exact absurd hcon (by omega)
        | (i + 1), hr =>
          rw [List.get?_cons_succ] at hr
          obtain ⟨iha, ihb⟩ := ih3 i r hr
          constructor
          · intro hlt2
            obtain ⟨ha, hrem⟩ := iha (by omega)
            refine ⟨ha, ?_⟩
            rw [hrem]
            push_cast
            ring
          · intro hge
            exact ihb (by omega)
    · have hstep : limiterConsume cfg (some ⟨t0, min h cfg.points⟩) t
          = (.rejected (t0 + cfg.duration * 1000 - t), ⟨t0, min (h + 1) cfg.points⟩) := by
        rw [show min h cfg.points = cfg.points by omega,
            limiterConsume_inWindow cfg t0 cfg.points t hlt, if_neg (by omega)]
        have : cfg.points = min (h + 1) cfg.points := by omega
        rw [← this]
      have hrun : consumeSeq cfg (t :: ts) (some ⟨t0, min h cfg.points⟩)
          = (rateLimitResultOf cfg.points (.rejected (t0 + cfg.duration * 1000 - t)) t
              :: (consumeSeq cfg ts (some ⟨t0, min (h + 1) cfg.points⟩)).1,
             (consumeSeq cfg ts (some ⟨t0, min (h + 1) cfg.points⟩)).2) := by
        simp only [consumeSeq, hstep]
      obtain ⟨ih1, ih2, ih3⟩ := ih (h + 1) (by omega) htail
      refine ⟨?_, ?_, ?_⟩
      · rw [hrun]
        rw [ih1]
        simp only [Option.some.injEq, LimiterWindow.mk.injEq, List.length_cons, true_and]
        congr 1
        omega
      · rw [hrun]
        simp only [List.length_cons, ih2]
      · intro i r hr
        rw [hrun] at hr
        match i, hr with
        | 0, hr =>
          rw [List.get?_cons_zero, Option.some.injEq] at hr
          obtain ⟨ha, hrem, hretry⟩ := rateLimitResultOf_rejected cfg.points
            (t0 + cfg.duration * 1000 - t) t
          constructor
          · intro hcon
            exact absurd hcon (by omega)
          · intro _
            exact ⟨hr ▸ ha, hr ▸ hrem, hr ▸ hretry⟩
        | (i + 1), hr =>
          rw [List.get?_cons_succ] at hr
          obtain ⟨iha, ihb⟩ := ih3 i r hr
          constructor
          · intro hlt2
            exact absurd hlt2 (by omega)
          · intro hge
            exact ihb (by omega)

/-- C3: for any limiter configuration with limit `L ≥ 1` and window `D`, and
any consume sequence for one key starting at `t0` whose later consumes all
fall inside the window: the i-th consume (0-based) with `i < L` is allowed
with `remaining = L - (i+1)` (`L` minus the hits so far); every consume from
the (L+1)-th on within the window is rejected with `remaining = 0` and
`retryAfter > 0`; and a first consume after the window has elapsed is allowed
again with `remaining = L - 1`. -/
theorem C3_rate_limiter (cfg : LimiterCfg) (t0 : Nat) (ts : List Nat)
    (hpts : 1 ≤ cfg.points)
    (hts : ∀ t ∈ ts, t < t0 + cfg.duration * 1000) :
    (consumeSeq cfg (t0 :: ts) none).1.length = ts.length + 1 ∧
    (∀ i r, (consumeSeq cfg (t0 :: ts) none).1.get? i = some r →
      (i < cfg.points →
        r.allowed = true ∧ r.remaining = (cfg.points : Int) - (i + 1)) ∧
      (cfg.points ≤ i →
        r.allowed = false ∧ r.remaining = 0 ∧ ∃ s, r.retryAfter = some s ∧ 0 < s)) ∧
    (∀ t2, t0 + cfg.duration * 1000 ≤ t2 →
      (rateLimitResultOf cfg.points
          (limiterConsume cfg (consumeSeq cfg (t0 :: ts) none).2 t2).1 t2).allowed = true ∧
      (rateLimitResultOf cfg.points
          (limiterConsume cfg (consumeSeq cfg (t0 :: ts) none).2 t2).1 t2).remaining
        = (cfg.points : Int) - 1) := by
  have hfirst : limiterConsume cfg none t0 = (.ok 1 (cfg.duration * 1000), ⟨t0, 1⟩) := rfl
  have hw1 : (⟨t0, 1⟩ : LimiterWindow) = ⟨t0, min 1 cfg.points⟩ := by
    congr 1
    omega
  have hrun : consumeSeq cfg (t0 :: ts) none
      = (rateLimitResultOf cfg.points (.ok 1 (cfg.duration * 1000)) t0
          :: (consumeSeq cfg ts (some ⟨t0, min 1 cfg.points⟩)).1,
         (consumeSeq cfg ts (some ⟨t0, min 1 cfg.points⟩)).2) := by
    simp only [consumeSeq, hfirst, hw1]
  obtain ⟨ih1, ih2, ih3⟩ := consumeSeq_inWindow cfg t0 ts 1 (by omega) hts
  refine ⟨?_, ?_, ?_⟩
  · rw [hrun]
    simp only [List.length_cons, ih2]
  · intro i r hr
    rw [hrun] at hr
    match i, hr with
    | 0, hr =>
      rw [List.get?_cons_zero, Option.some.injEq] at hr
      obtain ⟨ha, hrem⟩ := rateLimitResultOf_ok cfg.points 1 (cfg.duration * 1000) t0 (by omega)
      constructor
      · intro _
        refine ⟨hr ▸ ha, ?_⟩
        rw [← hr, hrem]
        push_cast
        ring
      · intro hcon
        exact absurd hcon (by omega)
    | (i + 1), hr =>
      rw [List.get?_cons_succ] at hr
      obtain ⟨iha, ihb⟩ := ih3 i r hr
      constructor
      · intro hlt2
        obtain ⟨ha, hrem⟩ := iha (by omega)
        refine ⟨ha, ?_⟩
        rw [hrem]
        push_cast
        ring
      · intro hge
        exact ihb (by omega)
  · intro t2 ht2
    rw [hrun, ih1]
    have hreset : limiterConsume cfg (some ⟨t0, min (1 + ts.length) cfg.points⟩) t2
        = (.ok 1 (cfg.duration * 1000), ⟨t2, 1⟩) := by
      simp only [limiterConsume]
      rw [if_pos ht2]
    rw [hreset]
    have := rateLimitResultOf_ok cfg.points 1 (cfg.duration * 1000) t2 (by omega)
    exact ⟨this.1, by rw [this.2]; push_cast; ring⟩

/-- Witness for C3 at the guest limiter (limit 5, window 3600 s): six
consumes of one key at times 0..5 ms — the first is allowed with remaining 4,
the sixth is rejected, and a consume at 3 600 000 ms (window elapsed) is
allowed again. -/
theorem C3_rate_limiter_witness :
    ((consumeSeq guestCfg [0, 1, 2, 3, 4, 5] none).1.getD 0
        (rateLimitResultOf guestCfg.points (.rejected 0) 0)).remaining = 4 ∧
    ((consumeSeq guestCfg [0, 1, 2, 3, 4, 5] none).1.getD 5
        (rateLimitResultOf guestCfg.points (.rejected 0) 0)).allowed = false ∧
    (rateLimitResultOf guestCfg.points
        (limiterConsume guestCfg (consumeSeq guestCfg [0, 1, 2, 3, 4, 5] none).2
          3600000).1 3600000).allowed = true := by
  obtain ⟨hlen, hidx, hafter⟩ :=
    C3_rate_limiter guestCfg 0 [1, 2, 3, 4, 5] (by decide) (by decide)
  refine ⟨?_, ?_, ?_⟩
  · have h := (hidx 0 _ (by rfl)).1 (by decide)
    have heq : ((consumeSeq guestCfg [0, 1, 2, 3, 4, 5] none).1.getD 0
        (rateLimitResultOf guestCfg.points (.rejected 0) 0))
        = rateLimitResultOf guestCfg.points (limiterConsume guestCfg none 0).1 0 := by rfl
    rw [heq, h.2]
    decide
  · exact ((hidx 5 _ (by rfl)).2 (by decide)).1
  · exact (hafter 3600000 (by decide)).1

/-- One validation consume touches only the validation limiter's store. -/
theorem validation_step_frame (id : String) (now : Nat) (st : RateLimitStore) :
    (consumeValidationRateLimit id now st).2.guest = st.guest ∧
    (consumeValidationRateLimit id now st).2.user = st.user :=
  ⟨rfl, rfl⟩

/-- One generation consume touches only the guest or user limiter's store. -/
theorem generation_step_frame (id : String) (isAuth : Bool) (now : Nat) (st : RateLimitStore) :
    (consumeRateLimit id isAuth now st).2.validation = st.validation := by
  cases isAuth <;> rfl

/-- The result of a generation consume depends only on the guest and user
stores. -/
theorem consumeRateLimit_congr (id : String) (isAuth : Bool) (now : Nat)
    (st st' : RateLimitStore) (hg : st.guest = st'.guest) (hu : st.user = st'.user) :
    (consumeRateLimit id isAuth now st).1 = (consumeRateLimit id isAuth now st').1 := by
  cases isAuth <;> simp only [consumeRateLimit, hg, hu]

/-- The result of a validation consume depends only on the validation store. -/
theorem consumeValidationRateLimit_congr (id : String) (now : Nat)
    (st st' : RateLimitStore) (hv : st.validation = st'.validation) :
    (consumeValidationRateLimit id now st).1 = (consumeValidationRateLimit id now st').1 := by
  simp only [consumeValidationRateLimit, hv]

/-- A run of validation consumes leaves the generation stores untouched. -/
theorem validation_run_frame (ops : List (String × Nat)) :
    ∀ st : RateLimitStore,
      (ops.foldl (fun acc p => (consumeValidationRateLimit p.1 p.2 acc).2) st).guest
        = st.guest ∧
      (ops.foldl (fun acc p => (consumeValidationRateLimit p.1 p.2 acc).2) st).user
        = st.user := by
  induction ops with
  | nil => intro st; exact ⟨rfl, rfl⟩
  | cons p ops ih =>
    intro st
    refine ⟨?_, ?_⟩
    · exact ((ih ((consumeValidationRateLimit p.1 p.2 st).2)).1).trans
        (validation_step_frame p.1 p.2 st).1
    · exact ((ih ((consumeValidationRateLimit p.1 p.2 st).2)).2).trans
        (validation_step_frame p.1 p.2 st).2

/-- A run of generation consumes leaves the validation store untouched. -/
theorem generation_run_frame (gops : List (String × Bool × Nat)) :
    ∀ st : RateLimitStore,
      (gops.foldl (fun acc p => (consumeRateLimit p.1 p.2.1 p.2.2 acc).2) st).validation
        = st.validation := by
  induction gops with
  | nil => intro st; exact rfl
  | cons p gops ih =>
    intro st
    exact (ih ((consumeRateLimit p.1 p.2.1 p.2.2 st).2)).trans
      (generation_step_frame p.1 p.2.1 p.2.2 st)

/-- C9: the generation and validation limiter instances share no counters:
any sequence of validation consumes leaves the guest and user stores unchanged
and so a subsequent generation consume for any identifier returns exactly what
it would have returned without them; symmetrically, generation consumes leave
the validation store, and hence any subsequent validation result, unchanged. -/
theorem C9_limiter_independence :
    (∀ (ops : List (String × Nat)) (st : RateLimitStore),
      (ops.foldl (fun acc p => (consumeValidationRateLimit p.1 p.2 acc).2) st).guest
        = st.guest ∧
      (ops.foldl (fun acc p => (consumeValidationRateLimit p.1 p.2 acc).2) st).user
        = st.user ∧
      ∀ (id : String) (isAuth : Bool) (now : Nat),
        (consumeRateLimit id isAuth now
            (ops.foldl (fun acc p => (consumeValidationRateLimit p.1 p.2 acc).2) st)).1
          = (consumeRateLimit id isAuth now st).1) ∧
    (∀ (gops : List (String × Bool × Nat)) (st : RateLimitStore),
      (gops.foldl (fun acc p => (consumeRateLimit p.1 p.2.1 p.2.2 acc).2) st).validation
        = st.validation ∧
      ∀ (id : String) (now : Nat),
        (consumeValidationRateLimit id now
            (gops.foldl (fun acc p => (consumeRateLimit p.1 p.2.1 p.2.2 acc).2) st)).1
          = (consumeValidationRateLimit id now st).1) := by
  constructor
  · intro ops st
    obtain ⟨hg, hu⟩ := validation_run_frame ops st
    exact ⟨hg, hu, fun id isAuth now => consumeRateLimit_congr id isAuth now _ st hg hu⟩
  · intro gops st
    have hv := generation_run_frame gops st
    exact ⟨hv, fun id now => consumeValidationRateLimit_congr id now _ st hv⟩

/-- Every wrapped limiter result satisfies the claimed bounds. -/
theorem rateLimitResultOf_invariant (points : Nat) (out : LimiterOutcome) (now : Nat) :
    0 ≤ (rateLimitResultOf points out now).remaining ∧
    (rateLimitResultOf points out now).remaining ≤ (rateLimitResultOf points out now).limit ∧
    ((rateLimitResultOf points out now).allowed = false →
      (rateLimitResultOf points out now).remaining = 0 ∧
      ∃ s, (rateLimitResultOf points out now).retryAfter = some s ∧ 1 ≤ s) := by
  cases out with
  | ok totalHits ms =>
    refine ⟨?_, ?_, ?_⟩
    · exact le_max_left 0 _
    · show max 0 ((points : Int) - totalHits) ≤ (points : Int)
      apply max_le <;> omega
    · intro hfalse
      exact absurd hfalse (by simp [rateLimitResultOf])
  | rejected ms =>
    refine ⟨le_refl 0, ?_, ?_⟩
    · show (0 : Int) ≤ (points : Int)
      omega
    · intro _
      refine ⟨rfl, ⟨if jsRoundDiv1000 ms = 0 then 1 else jsRoundDiv1000 ms, rfl, ?_⟩⟩
      split
      · omega
      · rename_i hne
        omega

/-- C10: every `RateLimitResult` returned by `consumeRateLimit` or
`consumeValidationRateLimit` satisfies `0 ≤ remaining ≤ limit`, and whenever
`allowed = false` it additionally has `remaining = 0` and `retryAfter ≥ 1`
(the `|| 1` coercion keeps the retry delay at least one second). -/
theorem C10_result_bounds :
    (∀ (id : String) (isAuth : Bool) (now : Nat) (st : RateLimitStore),
      0 ≤ (consumeRateLimit id isAuth now st).1.remaining ∧
      (consumeRateLimit id isAuth now st).1.remaining
        ≤ (consumeRateLimit id isAuth now st).1.limit ∧
      ((consumeRateLimit id isAuth now st).1.allowed = false →
        (consumeRateLimit id isAuth now st).1.remaining = 0 ∧
        ∃ s, (consumeRateLimit id isAuth now st).1.retryAfter = some s ∧ 1 ≤ s)) ∧
    (∀ (id : String) (now : Nat) (st : RateLimitStore),
      0 ≤ (consumeValidationRateLimit id now st).1.remaining ∧
      (consumeValidationRateLimit id now st).1.remaining
        ≤ (consumeValidationRateLimit id now st).1.limit ∧
      ((consumeValidationRateLimit id now st).1.allowed = false →
        (consumeValidationRateLimit id now st).1.remaining = 0 ∧
        ∃ s, (consumeValidationRateLimit id now st).1.retryAfter = some s ∧ 1 ≤ s)) := by
  constructor
  · intro id isAuth now st
    exact rateLimitResultOf_invariant _ _ now
  · intro id now st
    exact rateLimitResultOf_invariant _ _ now

/-- Witness for C10 at a concrete rejected consume: the validation store holds
a full window (10 hits), so the consume is disallowed with remaining 0 and
retryAfter at least 1. -/
theorem C10_result_bounds_witness :
    (consumeValidationRateLimit "ip" 5
        ⟨fun _ => none, fun _ => none, fun _ => some ⟨0, 10⟩⟩).1.remaining = 0 ∧
    ∃ s, (consumeValidationRateLimit "ip" 5
        ⟨fun _ => none, fun _ => none, fun _ => some ⟨0, 10⟩⟩).1.retryAfter
      = some s ∧ 1 ≤ s :=
  (C10_result_bounds.2 "ip" 5 ⟨fun _ => none, fun _ => none, fun _ => some ⟨0, 10⟩⟩).2.2 rfl

/-- Characterisation of the lowercase map: a character is either fixed or an
uppercase letter paired with its lowercase image. -/
theorem lcChar_cases (c : Char) : lcChar c = c ∨ (c, lcChar c) ∈ UPPER_TO_LOWER := by
  unfold lcChar
  cases hf : UPPER_TO_LOWER.find? (fun p => p.1 = c) with
  | none => left; rfl
  | some p =>
    right
    have hc : p.1 = c := by simpa using List.find?_some hf
    have hmem := List.mem_of_find?_eq_some hf
    show (c, p.2) ∈ UPPER_TO_LOWER
    rw [← hc]
    exact hmem

/-- Neither an uppercase letter nor its lowercase image is whitespace or an
XSS-stripped character. -/
theorem pairs_props : ∀ p ∈ UPPER_TO_LOWER,
    jsIsWs p.1 = false ∧ jsIsWs p.2 = false ∧
    isXssChar p.1 = false ∧ isXssChar p.2 = false := by decide

/-- Lowercasing does not change whether a character is whitespace. -/
theorem jsIsWs_lcChar (c : Char) : jsIsWs (lcChar c) = jsIsWs c := by
  rcases lcChar_cases c with h | h
  · rw [h]
  · obtain ⟨h1, h2, _, _⟩ := pairs_props _ h
    have h1' : jsIsWs c = false := h1
    have h2' : jsIsWs (lcChar c) = false := h2
    rw [h1', h2']

/-- Lowercasing does not change whether a character is XSS-stripped. -/
theorem isXssChar_lcChar (c : Char) : isXssChar (lcChar c) = isXssChar c := by
  rcases lcChar_cases c with h | h
  · rw [h]
  · obtain ⟨_, _, h3, h4⟩ := pairs_props _ h
    have h3' : isXssChar c = false := h3
    have h4' : isXssChar (lcChar c) = false := h4
    rw [h3', h4']

/-- The space character is already lowercase. -/
theorem lcChar_space : lcChar ' ' = ' ' := by decide

/-- Lowercasing commutes with the XSS filter. -/
theorem map_lc_filter (l : List Char) :
    (l.filter fun c => !isXssChar c).map lcChar
      = (l.map lcChar).filter fun c => !isXssChar c := by
  induction l with
  | nil => rfl
  | cons c t ih =>
    simp only [List.filter_cons, List.map_cons, isXssChar_lcChar]
    cases hx : isXssChar c <;> simp [hx, ih]

/-- Lowercasing commutes with dropping leading whitespace. -/
theorem map_lc_dropWhile (l : List Char) :
    (l.dropWhile jsIsWs).map lcChar = (l.map lcChar).dropWhile jsIsWs := by
  induction l with
  | nil => rfl
  | cons c t ih =>
    simp only [List.dropWhile_cons, List.map_cons, jsIsWs_lcChar]
    cases hw : jsIsWs c <;> simp [hw, ih]

/-- Lowercasing commutes with trimming. -/
theorem map_lc_jsTrim (l : List Char) :
    (jsTrim l).map lcChar = jsTrim (l.map lcChar) := by
  unfold jsTrim
  rw [List.map_reverse, map_lc_dropWhile, List.map_reverse, map_lc_dropWhile]

/-- Lowercasing commutes with whitespace-run collapsing. -/
theorem map_lc_collapseAux (l : List Char) :
    ∀ b, (collapseWsAux b l).map lcChar = collapseWsAux b (l.map lcChar) := by
  induction l with
  | nil => intro b; rfl
  | cons c t ih =>
    intro b
    simp only [collapseWsAux, List.map_cons, jsIsWs_lcChar]
    cases hw : jsIsWs c
    · simp [hw, ih]
    · cases b <;> simp [hw, ih, lcChar_space]

/-- Lowercasing commutes with the whole sanitisation pipeline. -/
theorem map_lc_sanitize_comm (l : List Char) :
    (collapseWs ((jsTrim l).filter fun c => !isXssChar c)).map lcChar
      = collapseWs ((jsTrim (l.map lcChar)).filter fun c => !isXssChar c) := by
  unfold collapseWs
  rw [map_lc_collapseAux, map_lc_filter, map_lc_jsTrim]

/-- Two raw inputs that are equal ignoring case sanitise to values that are
again equal ignoring case. -/
theorem toLower_sanitize_congr (a b : String) (h : toLowerStr a = toLowerStr b) :
    toLowerStr (sanitizeInput a) = toLowerStr (sanitizeInput b) := by
  have hd : a.data.map lcChar = b.data.map lcChar := congrArg String.data h
  show (⟨((collapseWs ((jsTrim a.data).filter fun c => !isXssChar c)).map lcChar).map lcChar⟩ : String)
      = ⟨((collapseWs ((jsTrim b.data).filter fun c => !isXssChar c)).map lcChar).map lcChar⟩
  rw [map_lc_sanitize_comm a.data, map_lc_sanitize_comm b.data, hd]

/-- A list with two equal entries at distinct positions loses length under
`dedup`. -/
theorem dedup_length_ne_of_dup {m : List String} (i j : Nat) (hij : i ≠ j)
    (x : String) (hi : m.get? i = some x) (hj : m.get? j = some x) :
    ¬ (m.dedup.length = m.length) := by
  intro hlen
  have heq : m.dedup = m := (List.dedup_sublist m).eq_of_length hlen
  have hnd : m.Nodup := heq ▸ List.nodup_dedup m
  obtain ⟨hilt, -⟩ := List.get?_eq_some.mp hi
  exact hij (List.get?_inj hilt hnd (hi.trans hj.symm))

/-- Every per-ingredient check is invariant under case: two raw inputs equal
ignoring case collect exactly the same element issues. -/
theorem issues_toLower_congr (a b : String) (h : toLowerStr a = toLowerStr b) :
    ingredientSchemaIssues a = ingredientSchemaIssues b := by
  have hd : a.data.map lcChar = b.data.map lcChar := congrArg String.data h
  have hlen : a.data.length = b.data.length := by
    have h1 := congrArg List.length hd
    simpa using h1
  have htrim : (jsTrim a.data).length = (jsTrim b.data).length := by
    have h1 : ((jsTrim a.data).map lcChar).length = ((jsTrim b.data).map lcChar).length := by
      rw [map_lc_jsTrim, map_lc_jsTrim, hd]
    simpa using h1
  unfold ingredientSchemaIssues
  rw [hlen, htrim, h]

/-- Two raw inputs equal ignoring case contribute element values that are
again equal ignoring case (raw when dirty, sanitised when valid — and the two
sides agree on which, since the checks are case-invariant). -/
theorem value_toLower_congr (a b : String) (h : toLowerStr a = toLowerStr b) :
    toLowerStr (ingredientSchemaValue a) = toLowerStr (ingredientSchemaValue b) := by
  unfold ingredientSchemaValue
  rw [issues_toLower_congr a b h]
  by_cases hc : ingredientSchemaIssues b = []
  · rw [if_pos hc, if_pos hc]
    exact toLower_sanitize_congr a b h
  · rw [if_neg hc, if_neg hc]
    exact h

/-- C8: for every ingredient list containing two entries (at distinct
positions) that are equal ignoring case, validation of a generation request
fails and the reported issues cite duplicate ingredients — zod's duplicate
refinement runs even on a dirty parse, so the duplicate message is collected
alongside any size or element issues. -/
theorem C8_duplicates_cited (l : List String) (i j : Nat) (hij : i ≠ j)
    (a b : String) (hi : l.get? i = some a) (hj : l.get? j = some b)
    (hab : toLowerStr a = toLowerStr b) :
    ∃ issues, recipeGenerationSchema l = .error issues ∧
      "Duplicate ingredients are not allowed" ∈ issues := by
  have hdup : ¬ ((((l.map ingredientSchemaValue).map toLowerStr).dedup).length
      = (l.map ingredientSchemaValue).length) := by
    have hlen2 : ((l.map ingredientSchemaValue).map toLowerStr).length
        = (l.map ingredientSchemaValue).length := List.length_map _ _
    rw [← hlen2]
    apply dedup_length_ne_of_dup i j hij (toLowerStr (ingredientSchemaValue a))
    · rw [List.get?_map, List.get?_map, hi]
      rfl
    · rw [List.get?_map, List.get?_map, hj]
      rw [value_toLower_congr a b hab]
      rfl
  simp only [recipeGenerationSchema, if_neg hdup]
  have hne : ((if l.length < MIN_INGREDIENTS then ["At least 3 ingredients required"] else []) ++
        (if l.length > MAX_INGREDIENTS then ["Maximum 15 ingredients allowed"] else [])) ++
        (l.map ingredientSchemaIssues).flatten ++ ["Duplicate ingredients are not allowed"]
        ≠ [] := by
    simp
  rw [if_neg hne]
  exact ⟨_, rfl, by simp⟩

/-- Witness for C8 at `["Tomato", "tomato", "salt"]`: a case-insensitive
duplicate makes validation fail with the duplicate-ingredients issue
reported. -/
theorem C8_duplicates_cited_witness :
    ∃ issues, recipeGenerationSchema ["Tomato", "tomato", "salt"] = .error issues ∧
      "Duplicate ingredients are not allowed" ∈ issues :=
  C8_duplicates_cited ["Tomato", "tomato", "salt"] 0 1 (by decide)
    "Tomato" "tomato" rfl rfl (by rfl)

end RecipeGen
